import Mathlib

/-!
# Verification of the freight-app ledger / payment-reconciliation core

Shallow embedding of the repository's core financial logic:

* the THN (truck-hiring-note) status recompute `updateThnStatus` and the THN
  creation flow `createTruckHiringNote`
  (`src/backend/src/controllers/paymentController.ts`);
* the TDS handling inside `createPayment` (same file);
* the zod payment validation schema `createPaymentSchema`
  (`src/backend/src/utils/validation.ts`);
* the ledger builders `LedgerService.generateClientLedger` and
  `LedgerService.generateCompanyLedger` (`services/ledgerService.ts`).

Modelling conventions:

* JS numbers holding money are modelled as `ℚ` (the code performs exact-looking
  arithmetic on them; no float-specific behaviour is claimed);
* date strings are modelled as integers on an abstract timeline: the code only
  ever compares dates via `new Date(x).getTime()`, so a date is an `Int`
  timestamp and `new Date(a) >= new Date(b)` becomes `b ≤ a`;
* `undefined`-able fields are `Option`s; JS truthiness `x || d` on a numeric
  field becomes `x.getD d`;
* Mongo collections are Lean lists, `findById` is `List.find?` on the `id`
  field, `findByIdAndUpdate` maps the update over the matching record;
* purely presentational string fields (`particulars`, `voucherNumber`,
  `notes`, ...) are not modelled: no claim depends on them;
* `Date.now()` is passed in explicitly as a `today` parameter where the code
  uses it.
-/

/-- `PaymentType` enum from `types.ts`. -/
inductive PaymentType where
  | ADVANCE
  | RECEIPT
  | PAYMENT
deriving DecidableEq, Repr

/-- `THNStatus` enum from `types.ts` (`Unpaid` / `Partially Paid` / `Paid`). -/
inductive THNStatus where
  | UNPAID
  | PARTIALLY_PAID
  | PAID
deriving DecidableEq, Repr

/-- Balance side of a ledger entry (`'DR' | 'CR'`). -/
inductive BalanceType where
  | DR
  | CR
deriving DecidableEq, Repr

/-! ## Backend store model (paymentController.ts) -/

/-- A stored `TruckHiringNote` document; only the fields read or written by the
reconciliation code are modelled.  `additionalCharges` and `advanceAmount` are
optional in the schema, and the code reads them as `thn.additionalCharges || 0`
and `thn.advanceAmount || 0`. -/
structure Thn where
  id : Nat
  thnNumber : Nat
  date : Int
  freightRate : ℚ
  additionalCharges : Option ℚ
  advanceAmount : Option ℚ
  paidAmount : ℚ
  balanceAmount : ℚ
  status : THNStatus
deriving DecidableEq, Repr

/-- A stored `Payment` document (backend side); only the fields consulted by
the THN recompute and THN creation are modelled. -/
structure PaymentRec where
  id : Nat
  truckHiringNoteId : Option Nat
  date : Int
  amount : ℚ
  type : PaymentType
  referenceNo : Option String
deriving DecidableEq, Repr

/-- The backing store: the `TruckHiringNote` and `Payment` collections. -/
structure Store where
  thns : List Thn
  payments : List PaymentRec
deriving DecidableEq, Repr

/-- `TruckHiringNote.findById(thnId)`. -/
def findThn (s : Store) (thnId : Nat) : Option Thn :=
  s.thns.find? (fun t => decide (t.id = thnId))

/-- The payments matched by `{ truckHiringNoteId: thnId }`. -/
def paymentsForThn (s : Store) (thnId : Nat) : List PaymentRec :=
  s.payments.filter (fun p => decide (p.truckHiringNoteId = some thnId))

/-- `list.reduce((sum, x) => sum + f(x), 0)` / Mongo `$sum` aggregation. -/
def sumBy {α : Type} (f : α → ℚ) (l : List α) : ℚ :=
  l.foldl (fun acc x => acc + f x) 0

/-- The deterministic advance reference tag `THN-{thnNumber}-ADVANCE`. -/
def advanceRefTag (thnNumber : Nat) : String :=
  "THN-" ++ toString thnNumber ++ "-ADVANCE"

/-- `updateThnStatus` (paymentController.ts lines 11-65).  Looks up the THN; if
missing, does nothing (the catch/log path is a no-op on the store).  Otherwise
sums the amounts of all payments referencing the THN, checks whether any
payment of type `Advance` references it (`Payment.findOne({truckHiringNoteId,
type: ADVANCE})` — note: no reference-tag condition), adds the stored
`advanceAmount` only when no such payment exists, clamps the balance at 0,
derives the tri-state status and persists `{paidAmount, balanceAmount,
status}` onto the THN document. -/
def updateThnStatus (s : Store) (thnId : Nat) : Store :=
  match findThn s thnId with
  | none => s
  | some thn =>
    let paidAmount := sumBy PaymentRec.amount (paymentsForThn s thnId)
    let totalAmount := thn.freightRate + thn.additionalCharges.getD 0
    let advancePaymentExists :=
      (paymentsForThn s thnId).any (fun p => decide (p.type = PaymentType.ADVANCE))
    let totalPaidAmount :=
      if advancePaymentExists then paidAmount else paidAmount + thn.advanceAmount.getD 0
    let balanceAmount := max 0 (totalAmount - totalPaidAmount)
    let status :=
      if balanceAmount ≤ 0 then THNStatus.PAID
      else if 0 < totalPaidAmount then THNStatus.PARTIALLY_PAID
      else THNStatus.UNPAID
    { s with
      thns := s.thns.map (fun t =>
        if t.id = thnId then
          { t with paidAmount := totalPaidAmount, balanceAmount := balanceAmount,
                   status := status }
        else t) }

/-- The advance-detection rule as the claim states it: an Advance-type payment
for the THN carrying the deterministic reference tag.  This follows the spec's
words and is compared against the detection the code actually performs (which
ignores the tag). -/
def advanceDetectedWithTag (s : Store) (thnId : Nat) (thnNumber : Nat) : Bool :=
  (paymentsForThn s thnId).any (fun p =>
    decide (p.type = PaymentType.ADVANCE) &&
    decide (p.referenceNo = some (advanceRefTag thnNumber)))

/-- The parsed payload of `createTruckHiringNoteSchema` — only the financial
fields the creation flow computes with. -/
structure ThnInput where
  date : Int
  freightRate : ℚ
  advanceAmount : Option ℚ
  additionalCharges : Option ℚ
deriving DecidableEq, Repr

/-- The `TruckHiringNote` document built by `createTruckHiringNote`:
`totalAmount = freightRate + (additionalCharges || 0)`,
`balanceAmount = max(0, totalAmount - advanceAmount)`, initial status derived
from the advance, and `paidAmount` set to the advance amount. -/
def createdThnNote (input : ThnInput) (newThnId thnNumber : Nat) : Thn :=
  let totalAmount := input.freightRate + input.additionalCharges.getD 0
  let advanceAmount := input.advanceAmount.getD 0
  let balanceAmount := max 0 (totalAmount - advanceAmount)
  let initialStatus :=
    if balanceAmount ≤ 0 then THNStatus.PAID
    else if 0 < advanceAmount then THNStatus.PARTIALLY_PAID
    else THNStatus.UNPAID
  { id := newThnId, thnNumber := thnNumber, date := input.date,
    freightRate := input.freightRate,
    additionalCharges := some (input.additionalCharges.getD 0),
    advanceAmount := some advanceAmount,
    paidAmount := advanceAmount, balanceAmount := balanceAmount,
    status := initialStatus }

/-- The companion advance `Payment` synthesized by `createTruckHiringNote`:
type `Advance`, amount equal to the advance, deterministic reference
`THN-{thnNumber}-ADVANCE`. -/
def createdAdvancePayment (input : ThnInput) (newThnId thnNumber newPaymentId : Nat) :
    PaymentRec :=
  { id := newPaymentId, truckHiringNoteId := some newThnId,
    date := input.date, amount := input.advanceAmount.getD 0,
    type := PaymentType.ADVANCE,
    referenceNo := some (advanceRefTag thnNumber) }

/-- `createTruckHiringNote` (truck-hiring-note controller, lines 333-470).
Saves the note built by `createdThnNote`, and — when the advance is
positive — also saves the synthesized advance payment
`createdAdvancePayment`.  The minted `thnNumber` and the fresh document ids
are passed in (they come from the numbering config / the database). -/
def createTruckHiringNote (s : Store) (input : ThnInput) (newThnId : Nat)
    (thnNumber : Nat) (newPaymentId : Nat) : Store :=
  let s1 : Store :=
    { s with thns := s.thns ++ [createdThnNote input newThnId thnNumber] }
  if 0 < input.advanceAmount.getD 0 then
    { s1 with payments :=
        s1.payments ++ [createdAdvancePayment input newThnId thnNumber newPaymentId] }
  else s1

/-- The effective total paid amount `updateThnStatus` computes for a THN:
the sum of the linked payment records, plus the stored `advanceAmount` only
when no payment of type `Advance` references the THN. -/
def thnTotalPaid (s : Store) (thnId : Nat) (thn : Thn) : ℚ :=
  if (paymentsForThn s thnId).any (fun p => decide (p.type = PaymentType.ADVANCE)) then
    sumBy PaymentRec.amount (paymentsForThn s thnId)
  else
    sumBy PaymentRec.amount (paymentsForThn s thnId) + thn.advanceAmount.getD 0

/-- `totalAmount = thn.freightRate + (thn.additionalCharges || 0)`. -/
def thnTotalAmount (thn : Thn) : ℚ :=
  thn.freightRate + thn.additionalCharges.getD 0

/-! ## Payment creation payload, validation schema and TDS handling -/

/-- The parsed output of `createPaymentSchema` (validation.ts lines 88-123).
Absent (`undefined`) optional fields are `none`; `date` and the string fields
stay strings. -/
structure PaymentPayload where
  invoiceId : Option String
  truckHiringNoteId : Option String
  customer : Option String
  amount : ℚ
  date : String
  type : PaymentType
  referenceNo : Option String
  notes : Option String
  tdsApplicable : Option Bool
  tdsRate : Option ℚ
  tdsAmount : Option ℚ
  tdsDate : Option String
deriving DecidableEq, Repr

/-- JS truthiness of an optional string field (`undefined` and `''` are
falsy). -/
def strTruthy : Option String → Bool
  | some s => !(s = "")
  | none => false

/-- `customer.trim().length > 0`: a string survives trimming with positive
length exactly when it contains a non-whitespace character. -/
def trimmedNonempty (c : String) : Bool :=
  c.toList.any (fun ch => !ch.isWhitespace)

/-- `createPaymentSchema` as an acceptance predicate: the base field checks of
the zod object (`amount` positive, `date` non-empty, `tdsRate` within 0-100,
`tdsAmount` non-negative) conjoined with its four `.refine` clauses:
at least one of `invoiceId`/`truckHiringNoteId`; a non-blank `customer` when
invoice-linked; TDS only on Receipts; `tdsRate` present when TDS applicable. -/
def createPaymentSchemaAccepts (pd : PaymentPayload) : Bool :=
  decide (0 < pd.amount) &&
  decide (1 ≤ pd.date.length) &&
  (match pd.tdsRate with
   | some r => decide (0 ≤ r) && decide (r ≤ 100)
   | none => true) &&
  (match pd.tdsAmount with
   | some a => decide (0 ≤ a)
   | none => true) &&
  (strTruthy pd.invoiceId || strTruthy pd.truckHiringNoteId) &&
  (if strTruthy pd.invoiceId then
     match pd.customer with
     | some c => trimmedNonempty c
     | none => false
   else true) &&
  (!(pd.tdsApplicable.getD false) || decide (pd.type = PaymentType.RECEIPT)) &&
  (!(pd.tdsApplicable.getD false) || pd.tdsRate.isSome)

/-- The monetary/TDS fields of the `Payment` document built by
`createPayment`. -/
structure StoredPaymentFields where
  amount : ℚ
  tdsAmount : Option ℚ
  tdsRate : Option ℚ
  tdsDate : Option String
deriving DecidableEq, Repr

/-- Result of the TDS-handling stage of `createPayment`: either the early
`400 Validation failed` response or the fields that get persisted. -/
inductive CreatePaymentResult where
  | validationError
  | ok (fields : StoredPaymentFields)
deriving DecidableEq, Repr

/-- The TDS-handling portion of `createPayment` (paymentController.ts lines
110-162).  When TDS applies to a Receipt: a missing `tdsRate` is a validation
error (`!tdsRate && tdsRate !== 0` rejects exactly `undefined`); a missing
`tdsAmount` is computed as `amount * tdsRate / 100` and `amount` is then
treated as gross (`finalAmount = amount - tdsAmount`); a supplied `tdsAmount`
leaves `amount` untouched.  Otherwise all TDS fields are cleared and the
amount passes through.  `tdsDate` defaults to the payment date. -/
def createPaymentTds (pd : PaymentPayload) : CreatePaymentResult :=
  let tdsDate0 := pd.tdsDate.getD pd.date
  if pd.tdsApplicable.getD false && decide (pd.type = PaymentType.RECEIPT) then
    match pd.tdsRate with
    | none => CreatePaymentResult.validationError
    | some rate =>
      let tdsAmount :=
        match pd.tdsAmount with
        | none => pd.amount * (rate / 100)
        | some a => a
      let finalAmount :=
        match pd.tdsAmount with
        | none => pd.amount - tdsAmount
        | some _ => pd.amount
      CreatePaymentResult.ok
        { amount := finalAmount, tdsAmount := some tdsAmount,
          tdsRate := some rate, tdsDate := some tdsDate0 }
  else
    CreatePaymentResult.ok
      { amount := pd.amount, tdsAmount := none, tdsRate := none, tdsDate := none }

/-! ## Ledger service model (ledgerService.ts) -/

/-- A frontend `Customer` — the ledger code only reads `_id` and `name`. -/
structure LCustomer where
  id : String
  name : String
deriving DecidableEq, Repr

/-- A frontend `Invoice` — the fields the ledger builders compute with. -/
structure LInvoice where
  id : String
  invoiceNumber : Nat
  date : Int
  customer : Option LCustomer
  grandTotal : ℚ
deriving DecidableEq, Repr

/-- A frontend `Payment` as seen by the ledger service.  At runtime
`customerId` is sometimes a raw id string and sometimes a populated object
(the code branches on `typeof p.customerId === 'string'`): `customerIdStr`
is `some s` in the raw-string case and `none` otherwise, in which case the
populated `customer` object is consulted. -/
structure LPayment where
  id : String
  customerIdStr : Option String
  customer : Option LCustomer
  date : Int
  amount : ℚ
  type : PaymentType
  tdsApplicable : Option Bool
  tdsRate : Option ℚ
  tdsAmount : Option ℚ
  tdsDate : Option Int
deriving DecidableEq, Repr

/-- A frontend `TruckHiringNote` — the fields the company ledger reads. -/
structure LThn where
  thnNumber : Nat
  date : Int
  truckOwnerName : String
  freightRate : ℚ
deriving DecidableEq, Repr

/-- The `LedgerFilters` shape; all six fields are part of the accepted
interface. -/
structure LedgerFilters where
  startDate : Option Int
  endDate : Option Int
  customerId : Option String
  voucherType : Option String
  minAmount : Option ℚ
  maxAmount : Option ℚ
deriving DecidableEq, Repr

/-- A computed ledger entry (client or company).  Presentation-only string
fields are not modelled; `balance`/`balanceType` hold the per-entry
placeholder until the running-balance pass overwrites them. -/
structure LedgerEntry where
  date : Int
  debit : ℚ
  credit : ℚ
  balance : ℚ
  balanceType : BalanceType
deriving DecidableEq, Repr

/-- The identifying content of an entry before the running-balance pass:
its date, debit and credit. -/
def entryKey (e : LedgerEntry) : Int × ℚ × ℚ :=
  (e.date, e.debit, e.credit)

/-- The signed contribution `debit - credit` of an entry. -/
def entryVal (e : LedgerEntry) : ℚ :=
  e.debit - e.credit

/-- Date order on entries — the JS comparator `(a, b) => a.date - b.date`. -/
def entryDateLE (a b : LedgerEntry) : Prop :=
  a.date ≤ b.date

instance : DecidableRel entryDateLE := fun a b =>
  inferInstanceAs (Decidable (a.date ≤ b.date))

instance : IsTotal LedgerEntry entryDateLE :=
  ⟨fun a b => Int.le_total a.date b.date⟩

instance : IsTrans LedgerEntry entryDateLE :=
  ⟨fun _ _ _ h1 h2 => Int.le_trans h1 h2⟩

/-- `entries.sort((a, b) => new Date(a.date).getTime() - new Date(b.date).getTime())`:
JS `Array.prototype.sort` is a stable ascending sort, modelled by stable
insertion sort. -/
def sortEntriesByDate (l : List LedgerEntry) : List LedgerEntry :=
  List.insertionSort entryDateLE l

/-- The running-balance pass: `runningBalance += debit - credit;
balance = |runningBalance|; balanceType = runningBalance >= 0 ? 'DR' : 'CR'`. -/
def applyRunningBalance (rb : ℚ) : List LedgerEntry → List LedgerEntry
  | [] => []
  | e :: es =>
    let rb' := rb + (e.debit - e.credit)
    { e with balance := |rb'|,
             balanceType := if 0 ≤ rb' then BalanceType.DR else BalanceType.CR }
      :: applyRunningBalance rb' es

/-- Sort by date, then walk the entries accumulating the running balance from
0 — the shared tail of both ledger builders. -/
def finalizeEntries (raw : List LedgerEntry) : List LedgerEntry :=
  applyRunningBalance 0 (sortEntriesByDate raw)

/-- The signed prefix sum `Σ_{j ≤ i} (debit_j - credit_j)` of an entry list. -/
def prefixSum (l : List LedgerEntry) (i : Nat) : ℚ :=
  ((l.take (i + 1)).map entryVal).sum

/-- The client-ledger start-date guard
`!filters || !filters.startDate || new Date(d) >= new Date(filters.startDate)`. -/
def clientStartDateOk (filters : Option LedgerFilters) (d : Int) : Bool :=
  match filters with
  | none => true
  | some f =>
    match f.startDate with
    | none => true
    | some sd => decide (sd ≤ d)

/-- Client-ledger debit entry for an invoice (`debit: grandTotal`). -/
def clientInvoiceEntry (inv : LInvoice) : LedgerEntry :=
  { date := inv.date, debit := inv.grandTotal, credit := 0,
    balance := 0, balanceType := BalanceType.DR }

/-- Client-ledger credit entry for a payment (`credit: amount`). -/
def clientPaymentEntry (p : LPayment) : LedgerEntry :=
  { date := p.date, debit := 0, credit := p.amount,
    balance := 0, balanceType := BalanceType.CR }

/-- Whether a payment resolves to the given customer:
`typeof p.customerId === 'string' ? p.customerId === customerId :
p.customer?._id === customerId`. -/
def paymentForCustomer (customerId : String) (p : LPayment) : Bool :=
  match p.customerIdStr with
  | some s => decide (s = customerId)
  | none =>
    match p.customer with
    | some c => decide (c.id = customerId)
    | none => false

/-- Whether an invoice belongs to the given customer:
`inv.customer?._id === customerId` (an unpopulated customer never matches). -/
def invoiceForCustomer (customerId : String) (inv : LInvoice) : Bool :=
  match inv.customer with
  | some c => decide (c.id = customerId)
  | none => false

/-- The entries generated by `generateClientLedger` in generation order:
one debit per matching invoice, then one credit per matching payment, each
guarded by the start-date filter. -/
def clientRawEntries (customerId : String) (invoices : List LInvoice)
    (payments : List LPayment) (filters : Option LedgerFilters) :
    List LedgerEntry :=
  let customerInvoices := invoices.filter (invoiceForCustomer customerId)
  let customerPayments := payments.filter (paymentForCustomer customerId)
  (customerInvoices.filter (fun inv => clientStartDateOk filters inv.date)).map
      clientInvoiceEntry
    ++ (customerPayments.filter (fun p => clientStartDateOk filters p.date)).map
      clientPaymentEntry

/-- The `LedgerSummary` shape of the client ledger. -/
structure LedgerSummary where
  openingBalance : ℚ
  openingBalanceType : BalanceType
  totalDebits : ℚ
  totalCredits : ℚ
  closingBalance : ℚ
  closingBalanceType : BalanceType
  transactionCount : Nat
deriving DecidableEq, Repr

/-- The `ClientLedgerData` result shape. -/
structure ClientLedgerData where
  customerId : String
  customerName : String
  openingBalance : ℚ
  openingBalanceType : BalanceType
  transactions : List LedgerEntry
  summary : LedgerSummary
deriving DecidableEq, Repr

/-- `LedgerService.generateClientLedger` (ledgerService.ts lines 802-896).
The `truckHiringNotes` argument is part of the signature but feeds only the
(unmodelled) particulars strings, so it produces no entries. -/
def generateClientLedger (customerId : String) (customer : LCustomer)
    (invoices : List LInvoice) (payments : List LPayment)
    (truckHiringNotes : List LThn) (filters : Option LedgerFilters) :
    ClientLedgerData :=
  let _ := truckHiringNotes
  let processedEntries :=
    finalizeEntries (clientRawEntries customerId invoices payments filters)
  { customerId := customerId
    customerName := customer.name
    openingBalance := 0
    openingBalanceType := BalanceType.DR
    transactions := processedEntries
    summary :=
      { openingBalance := 0
        openingBalanceType := BalanceType.DR
        totalDebits := sumBy LedgerEntry.debit processedEntries
        totalCredits := sumBy LedgerEntry.credit processedEntries
        closingBalance :=
          match processedEntries.getLast? with
          | some e => e.balance
          | none => 0
        closingBalanceType :=
          match processedEntries.getLast? with
          | some e => e.balanceType
          | none => BalanceType.DR
        transactionCount := processedEntries.length } }

/-- Company-ledger date-range test for an invoice
(`new Date(invoice.date) >= new Date(startDate) && <= new Date(endDate)`). -/
def invoiceInRange (sd ed : Int) (inv : LInvoice) : Bool :=
  decide (sd ≤ inv.date) && decide (inv.date ≤ ed)

/-- Company-ledger date-range test for a payment. -/
def paymentInRange (sd ed : Int) (p : LPayment) : Bool :=
  decide (sd ≤ p.date) && decide (p.date ≤ ed)

/-- Company-ledger date-range test for a THN. -/
def thnInRange (sd ed : Int) (thn : LThn) : Bool :=
  decide (sd ≤ thn.date) && decide (thn.date ≤ ed)

/-- Company-ledger entries for an invoice: a credit to sales revenue and a
debit to accounts receivable, both of `grandTotal`. -/
def companyInvoiceEntries (inv : LInvoice) : List LedgerEntry :=
  [ { date := inv.date, debit := 0, credit := inv.grandTotal,
      balance := 0, balanceType := BalanceType.CR },
    { date := inv.date, debit := inv.grandTotal, credit := 0,
      balance := 0, balanceType := BalanceType.DR } ]

/-- `payment.tdsApplicable && payment.type === RECEIPT && payment.tdsAmount &&
payment.tdsAmount > 0` (the truthiness test `payment.tdsAmount &&` and the
comparison `> 0` are both kept). -/
def hasTDS (p : LPayment) : Bool :=
  p.tdsApplicable.getD false && decide (p.type = PaymentType.RECEIPT) &&
    (match p.tdsAmount with
     | some a => !(a = 0) && decide (0 < a)
     | none => false)

/-- Company-ledger entries for a payment.  Advances: credit (advance received)
plus debit (cash/bank) of `amount`.  Otherwise: debit cash/bank for the net
`amount`; when TDS applies, an extra credit of `tdsAmount` dated
`tdsDate || date`; and a credit to receivables of the gross amount
(`amount + tdsAmount` when TDS applies, else `amount`). -/
def companyPaymentEntries (p : LPayment) : List LedgerEntry :=
  if p.type = PaymentType.ADVANCE then
    [ { date := p.date, debit := 0, credit := p.amount,
        balance := 0, balanceType := BalanceType.CR },
      { date := p.date, debit := p.amount, credit := 0,
        balance := 0, balanceType := BalanceType.DR } ]
  else
    let grossAmount := if hasTDS p then p.amount + p.tdsAmount.getD 0 else p.amount
    let netAmount := p.amount
    [ { date := p.date, debit := netAmount, credit := 0,
        balance := 0, balanceType := BalanceType.DR } ]
    ++ (if hasTDS p then
          [ { date := p.tdsDate.getD p.date, debit := 0,
              credit := p.tdsAmount.getD 0,
              balance := 0, balanceType := BalanceType.CR } ]
        else [])
    ++ [ { date := p.date, debit := 0, credit := grossAmount,
           balance := 0, balanceType := BalanceType.CR } ]

/-- Company-ledger entries for a THN: a freight-expense debit and a cash/bank
credit, both of `freightRate` only. -/
def companyThnEntries (thn : LThn) : List LedgerEntry :=
  [ { date := thn.date, debit := thn.freightRate, credit := 0,
      balance := 0, balanceType := BalanceType.DR },
    { date := thn.date, debit := 0, credit := thn.freightRate,
      balance := 0, balanceType := BalanceType.CR } ]

/-- The entries generated by `generateCompanyLedger` in generation order:
invoices, then payments, then THNs, each restricted to the date range. -/
def companyRawEntries (invoices : List LInvoice) (payments : List LPayment)
    (thns : List LThn) (sd ed : Int) : List LedgerEntry :=
  ((invoices.filter (invoiceInRange sd ed)).map companyInvoiceEntries).flatten
    ++ ((payments.filter (paymentInRange sd ed)).map companyPaymentEntries).flatten
    ++ ((thns.filter (thnInRange sd ed)).map companyThnEntries).flatten

/-- Effective company-ledger start date:
`filters?.startDate || <today minus 365 days>`. -/
def effStartDate (filters : Option LedgerFilters) (today : Int) : Int :=
  (filters.bind LedgerFilters.startDate).getD (today - 365 * 24 * 60 * 60 * 1000)

/-- Effective company-ledger end date: `filters?.endDate || <today>`. -/
def effEndDate (filters : Option LedgerFilters) (today : Int) : Int :=
  (filters.bind LedgerFilters.endDate).getD today

/-- The company-ledger summary shape. -/
structure CompanySummary where
  totalRevenue : ℚ
  totalExpenses : ℚ
  netProfit : ℚ
  totalAssets : ℚ
  totalLiabilities : ℚ
deriving DecidableEq, Repr

/-- The `CompanyLedgerData` result shape. -/
structure CompanyLedgerData where
  periodStart : Int
  periodEnd : Int
  transactions : List LedgerEntry
  summary : CompanySummary
deriving DecidableEq, Repr

/-- `LedgerService.generateCompanyLedger` (ledgerService.ts lines 901-1090).
`today` stands for `Date.now()`.  The `customers` argument is unused by the
source body.  The summary reduces over the *whole* input collections, not the
date-filtered entries; `totalAssets`/`totalLiabilities` are fixed at 0. -/
def generateCompanyLedger (customers : List LCustomer)
    (invoices : List LInvoice) (payments : List LPayment) (thns : List LThn)
    (filters : Option LedgerFilters) (today : Int) : CompanyLedgerData :=
  let _ := customers
  let startDate := effStartDate filters today
  let endDate := effEndDate filters today
  let processedEntries :=
    finalizeEntries (companyRawEntries invoices payments thns startDate endDate)
  let totalRevenue := sumBy LInvoice.grandTotal invoices
  let totalExpenses := sumBy LThn.freightRate thns
  { periodStart := startDate
    periodEnd := endDate
    transactions := processedEntries
    summary :=
      { totalRevenue := totalRevenue
        totalExpenses := totalExpenses
        netProfit := totalRevenue - totalExpenses
        totalAssets := 0
        totalLiabilities := 0 } }

/-! ## Concrete instances used by witnesses and counterexamples -/

/-- A THN with freight 100, no extras, used to witness the status-recompute
invariants. -/
def c1Thn : Thn :=
  { id := 1, thnNumber := 3, date := 0, freightRate := 100,
    additionalCharges := none, advanceAmount := none, paidAmount := 0,
    balanceAmount := 0, status := THNStatus.UNPAID }

/-- Store holding only `c1Thn`. -/
def c1Store : Store := { thns := [c1Thn], payments := [] }

/-- A THN with a stored advance of 100. -/
def c2Thn : Thn :=
  { id := 1, thnNumber := 7, date := 0, freightRate := 1000,
    additionalCharges := none, advanceAmount := some 100, paidAmount := 0,
    balanceAmount := 0, status := THNStatus.UNPAID }

/-- An Advance-type payment of 50 for THN 1 that does *not* carry the
deterministic reference tag (e.g. a manually recorded advance). -/
def c2Pay : PaymentRec :=
  { id := 5, truckHiringNoteId := some 1, date := 0, amount := 50,
    type := PaymentType.ADVANCE, referenceNo := none }

/-- Store holding `c2Thn` and `c2Pay`. -/
def c2Store : Store := { thns := [c2Thn], payments := [c2Pay] }

/-- THN creation input with a 5000 advance against an 8500 total. -/
def c3Input : ThnInput :=
  { date := 0, freightRate := 8000, advanceAmount := some 5000,
    additionalCharges := some 500 }

/-- A Receipt payload of gross 10000 at 10% TDS with no explicit
`tdsAmount`. -/
def c5Payload : PaymentPayload :=
  { invoiceId := some "inv1", truckHiringNoteId := none,
    customer := some "cust1", amount := 10000, date := "2025-01-01",
    type := PaymentType.RECEIPT, referenceNo := none, notes := none,
    tdsApplicable := some true, tdsRate := some 10, tdsAmount := none,
    tdsDate := none }

/-- A payment payload carrying *both* an invoice reference and a THN
reference, with every other schema check satisfied. -/
def c7BothPayload : PaymentPayload :=
  { invoiceId := some "inv1", truckHiringNoteId := some "thn1",
    customer := some "cust1", amount := 100, date := "2025-01-01",
    type := PaymentType.PAYMENT, referenceNo := none, notes := none,
    tdsApplicable := none, tdsRate := none, tdsAmount := none,
    tdsDate := none }

/-- An invoice dated day 10 belonging to customer `c1`. -/
def c9Inv : LInvoice :=
  { id := "i1", invoiceNumber := 3, date := 10,
    customer := some { id := "c1", name := "Acme" }, grandTotal := 12000 }

/-- Filters whose `endDate` (day 5) lies before `c9Inv`'s date. -/
def c9Filters : LedgerFilters :=
  { startDate := none, endDate := some 5, customerId := none,
    voucherType := none, minAmount := none, maxAmount := none }

/-- An in-range Receipt with TDS: stored net amount 9000, `tdsAmount`
1000. -/
def c6Payment : LPayment :=
  { id := "p1", customerIdStr := some "c1", customer := none, date := 5,
    amount := 9000, type := PaymentType.RECEIPT, tdsApplicable := some true,
    tdsRate := some 10, tdsAmount := some 1000, tdsDate := some 6 }

/-- An invoice dated day 1 for customer `c1`, grand total 12000 (the spec's
client-ledger scenario). -/
def c4Inv : LInvoice :=
  { id := "i1", invoiceNumber := 3, date := 1,
    customer := some { id := "c1", name := "Acme" }, grandTotal := 12000 }

/-- A payment of 5000 on day 15 by customer `c1` (the spec's client-ledger
scenario). -/
def c4Pay : LPayment :=
  { id := "p1", customerIdStr := some "c1", customer := none, date := 15,
    amount := 5000, type := PaymentType.RECEIPT, tdsApplicable := none,
    tdsRate := none, tdsAmount := none, tdsDate := none }

/-- An invoice on day 3 used to witness the company-ledger filters. -/
def c10Inv : LInvoice :=
  { id := "i2", invoiceNumber := 4, date := 3,
    customer := some { id := "c1", name := "Acme" }, grandTotal := 700 }

/-- A THN on day 4, freight 300, used in the company-ledger witnesses. -/
def c10Thn : LThn :=
  { thnNumber := 9, date := 4, truckOwnerName := "Owner", freightRate := 300 }

/-- Filters restricting the company ledger to days 0-10. -/
def c10Filters : LedgerFilters :=
  { startDate := some 0, endDate := some 10, customerId := none,
    voucherType := none, minAmount := none, maxAmount := none }

/-! ## Helper lemmas: the THN recompute -/

/-- `findByIdAndUpdate`: mapping an id-preserving update over the collection
turns the found record into its updated form. -/
theorem find?_map_update (l : List Thn) (i : Nat) (f : Thn → Thn) (t : Thn)
    (hid : ∀ u, (f u).id = u.id)
    (h : l.find? (fun u => decide (u.id = i)) = some t) :
    (l.map fun u => if u.id = i then f u else u).find?
      (fun u => decide (u.id = i)) = some (f t) := by
  induction l with
  | nil => simp at h
  | cons a l ih =>
    by_cases ha : a.id = i
    · rw [List.find?_cons_of_pos _ (by simpa using ha)] at h
      obtain rfl : a = t := Option.some.inj h
      rw [List.map_cons, if_pos ha,
        List.find?_cons_of_pos _ (by simp [hid, ha])]
    · rw [List.find?_cons_of_neg _ (by simpa using ha)] at h
      rw [List.map_cons, if_neg ha,
        List.find?_cons_of_neg _ (by simpa using ha)]
      exact ih h

/-- Characterization of `updateThnStatus` on a THN that exists: the found
record is persisted with the recomputed paid amount, clamped balance and
derived status. -/
theorem updateThnStatus_found (s : Store) (thnId : Nat) (thn : Thn)
    (h : findThn s thnId = some thn) :
    findThn (updateThnStatus s thnId) thnId = some
      { thn with
        paidAmount := thnTotalPaid s thnId thn
        balanceAmount := max 0 (thnTotalAmount thn - thnTotalPaid s thnId thn)
        status :=
          if max 0 (thnTotalAmount thn - thnTotalPaid s thnId thn) ≤ 0 then
            THNStatus.PAID
          else if 0 < thnTotalPaid s thnId thn then THNStatus.PARTIALLY_PAID
          else THNStatus.UNPAID } := by
  show findThn (match findThn s thnId with
    | none => s
    | some thn => _) thnId = _
  rw [h]
  exact find?_map_update s.thns thnId _ thn (fun _ => rfl) h


/-! ## C1 -/

/-- C1: For every THN found by `updateThnStatus`, the persisted values
satisfy `totalAmount = freightRate + additionalCharges` (missing
`additionalCharges` treated as 0), `balanceAmount = max(0, totalAmount -
paidAmount)` — never negative — and `status = Paid` if `balanceAmount ≤ 0`,
else `Partially Paid` if `paidAmount > 0`, else `Unpaid`. -/
theorem updateThnStatus_persisted_invariants (s : Store) (thnId : Nat)
    (thn : Thn) (h : findThn s thnId = some thn) :
    ∃ t', findThn (updateThnStatus s thnId) thnId = some t' ∧
      t'.balanceAmount =
        max 0 (thn.freightRate + thn.additionalCharges.getD 0 - t'.paidAmount) ∧
      0 ≤ t'.balanceAmount ∧
      t'.status = (if t'.balanceAmount ≤ 0 then THNStatus.PAID
        else if 0 < t'.paidAmount then THNStatus.PARTIALLY_PAID
        else THNStatus.UNPAID) := by
  refine ⟨_, updateThnStatus_found s thnId thn h, rfl, le_max_left 0 _, rfl⟩

/-- Witness for C1 at the concrete store `c1Store`. -/
theorem updateThnStatus_persisted_invariants_witness :
    ∃ t', findThn (updateThnStatus c1Store 1) 1 = some t' ∧
      t'.balanceAmount =
        max 0 (c1Thn.freightRate + c1Thn.additionalCharges.getD 0 - t'.paidAmount) ∧
      0 ≤ t'.balanceAmount ∧
      t'.status = (if t'.balanceAmount ≤ 0 then THNStatus.PAID
        else if 0 < t'.paidAmount then THNStatus.PARTIALLY_PAID
        else THNStatus.UNPAID) :=
  updateThnStatus_persisted_invariants c1Store 1 c1Thn rfl

/-! ## C2 -/

/-- C2 counterexample: in `c2Store` the THN has a stored `advanceAmount` of
100 and a single linked Advance-type payment of 50 that does *not* carry the
deterministic reference tag.  Under the claim's detection rule (type together
with tag) no advance payment exists, so the claim predicts a persisted
`paidAmount` of `50 + 100 = 150`; the code detects the advance by type alone
and persists 50. -/
theorem updateThnStatus_advance_detection_ignores_tag_cex :
    advanceDetectedWithTag c2Store 1 7 = false ∧
    (findThn c2Store 1).map (fun t => t.advanceAmount.getD 0) = some 100 ∧
    sumBy PaymentRec.amount (paymentsForThn c2Store 1) = 50 ∧
    (findThn (updateThnStatus c2Store 1) 1).map Thn.paidAmount = some 50 ∧
    ¬ (findThn (updateThnStatus c2Store 1) 1).map Thn.paidAmount =
        some (50 + 100) := by
  have hpaid : (findThn (updateThnStatus c2Store 1) 1).map Thn.paidAmount =
      some 50 := by
    rw [updateThnStatus_found c2Store 1 c2Thn rfl]
    norm_num [thnTotalPaid, paymentsForThn, c2Store, c2Pay, sumBy]
  refine ⟨rfl, rfl, ?_, hpaid, ?_⟩
  · norm_num [paymentsForThn, c2Store, c2Pay, sumBy]
  · rw [hpaid]
    norm_num

/-- C2 amended: in `updateThnStatus` an already-existing Advance payment is
detected by payment type == Advance alone (the deterministic reference tag is
not consulted); when such a payment exists the persisted `paidAmount` equals
the sum of the THN's linked payment amounts alone, and when none exists it
equals that sum plus the THN's stored `advanceAmount` (legacy fallback). -/
theorem updateThnStatus_effective_paid_amount (s : Store) (thnId : Nat)
    (thn : Thn) (h : findThn s thnId = some thn) :
    ∃ t', findThn (updateThnStatus s thnId) thnId = some t' ∧
      t'.paidAmount =
        (if (paymentsForThn s thnId).any
              (fun p => decide (p.type = PaymentType.ADVANCE)) then
           sumBy PaymentRec.amount (paymentsForThn s thnId)
         else
           sumBy PaymentRec.amount (paymentsForThn s thnId) +
             thn.advanceAmount.getD 0) :=
  ⟨_, updateThnStatus_found s thnId thn h, rfl⟩

/-- Witness for the amended C2 at the concrete store `c2Store`. -/
theorem updateThnStatus_effective_paid_amount_witness :
    ∃ t', findThn (updateThnStatus c2Store 1) 1 = some t' ∧
      t'.paidAmount =
        (if (paymentsForThn c2Store 1).any
              (fun p => decide (p.type = PaymentType.ADVANCE)) then
           sumBy PaymentRec.amount (paymentsForThn c2Store 1)
         else
           sumBy PaymentRec.amount (paymentsForThn c2Store 1) +
             c2Thn.advanceAmount.getD 0) :=
  updateThnStatus_effective_paid_amount c2Store 1 c2Thn rfl

/-! ## C8 -/

/-- C8: `updateThnStatus` is a total function of the store (it never throws
past its own boundary — the entire body is wrapped in a try/catch that only
logs), and when the THN id resolves to no record it modifies nothing: the
store is returned unchanged. -/
theorem updateThnStatus_missing_thn_noop (s : Store) (thnId : Nat)
    (h : findThn s thnId = none) : updateThnStatus s thnId = s := by
  show (match findThn s thnId with
    | none => s
    | some thn => _) = s
  rw [h]

/-- Witness for C8: recomputing a THN id absent from `c1Store` is a no-op. -/
theorem updateThnStatus_missing_thn_noop_witness :
    updateThnStatus c1Store 99 = c1Store :=
  updateThnStatus_missing_thn_noop c1Store 99 rfl

/-! ## C3 -/

/-- With a positive advance, `createTruckHiringNote` appends the note and the
synthesized advance payment to the store. -/
theorem createThn_pos (s : Store) (input : ThnInput)
    (newThnId thnNumber newPaymentId : Nat)
    (hpos : 0 < input.advanceAmount.getD 0) :
    createTruckHiringNote s input newThnId thnNumber newPaymentId =
      { thns := s.thns ++ [createdThnNote input newThnId thnNumber],
        payments := s.payments ++
          [createdAdvancePayment input newThnId thnNumber newPaymentId] } := by
  show (if 0 < input.advanceAmount.getD 0 then _ else _) = _
  rw [if_pos hpos]

/-- C3: creating a THN with `advanceAmount = 5000` (freight plus additional
charges exceeding 5000) synthesizes exactly one Advance-type Payment of
amount 5000 carrying the deterministic reference `THN-{number}-ADVANCE`, and
the subsequent recompute persists `paidAmount = 5000`, not 10000 — the THN's
raw `advanceAmount` is not summed on top of the Advance payment representing
it. -/
theorem createThn_advance_no_double_count (s : Store) (input : ThnInput)
    (newThnId thnNumber newPaymentId : Nat) (s' : Store)
    (hs' : s' = createTruckHiringNote s input newThnId thnNumber newPaymentId)
    (hfreshP : ∀ p ∈ s.payments, ¬ p.truckHiringNoteId = some newThnId)
    (hfreshT : findThn s newThnId = none)
    (hadv : input.advanceAmount = some 5000)
    (hgt : 5000 < input.freightRate + input.additionalCharges.getD 0) :
    (paymentsForThn s' newThnId).filter
        (fun p => decide (p.type = PaymentType.ADVANCE)) =
      [{ id := newPaymentId, truckHiringNoteId := some newThnId,
         date := input.date, amount := 5000, type := PaymentType.ADVANCE,
         referenceNo := some (advanceRefTag thnNumber) }] ∧
    (findThn (updateThnStatus s' newThnId) newThnId).map Thn.paidAmount =
      some 5000 ∧
    ¬ (findThn (updateThnStatus s' newThnId) newThnId).map Thn.paidAmount =
        some 10000 := by
  have hpos : (0 : ℚ) < input.advanceAmount.getD 0 := by
    rw [hadv]; norm_num
  have hsplit := createThn_pos s input newThnId thnNumber newPaymentId hpos
  have hadvPay : createdAdvancePayment input newThnId thnNumber newPaymentId =
      { id := newPaymentId, truckHiringNoteId := some newThnId,
        date := input.date, amount := 5000, type := PaymentType.ADVANCE,
        referenceNo := some (advanceRefTag thnNumber) } := by
    rw [createdAdvancePayment, hadv]; rfl
  have hpays : paymentsForThn s' newThnId =
      [createdAdvancePayment input newThnId thnNumber newPaymentId] := by
    rw [hs', hsplit, paymentsForThn]
    show List.filter _ (s.payments ++ _) = _
    rw [List.filter_append, List.filter_eq_nil_iff.mpr
      (fun p hp => by simpa using hfreshP p hp)]
    simp [createdAdvancePayment]
  have hnote : findThn s' newThnId =
      some (createdThnNote input newThnId thnNumber) := by
    rw [hs', hsplit, findThn]
    show List.find? _ (s.thns ++ _) = _
    rw [List.find?_append]
    have h0 : s.thns.find? (fun t => decide (t.id = newThnId)) = none := hfreshT
    rw [h0]
    simp [createdThnNote]
  have hpaid : (findThn (updateThnStatus s' newThnId) newThnId).map
      Thn.paidAmount = some 5000 := by
    rw [updateThnStatus_found s' newThnId _ hnote]
    have : thnTotalPaid s' newThnId (createdThnNote input newThnId thnNumber) =
        5000 := by
      rw [thnTotalPaid, hpays, hadvPay]
      norm_num [sumBy]
    simp only [Option.map_some']
    exact congrArg some this
  refine ⟨?_, hpaid, ?_⟩
  · rw [hpays, hadvPay]
    simp
  · rw [hpaid]
    norm_num

/-- Witness for C3: creating a THN from `c3Input` (freight 8000 + charges 500,
advance 5000) in the empty store. -/
theorem createThn_advance_no_double_count_witness :
    (paymentsForThn (createTruckHiringNote ⟨[], []⟩ c3Input 1 42 9) 1).filter
        (fun p => decide (p.type = PaymentType.ADVANCE)) =
      [{ id := 9, truckHiringNoteId := some 1, date := c3Input.date,
         amount := 5000, type := PaymentType.ADVANCE,
         referenceNo := some (advanceRefTag 42) }] ∧
    (findThn (updateThnStatus (createTruckHiringNote ⟨[], []⟩ c3Input 1 42 9) 1)
        1).map Thn.paidAmount = some 5000 ∧
    ¬ (findThn (updateThnStatus (createTruckHiringNote ⟨[], []⟩ c3Input 1 42 9) 1)
        1).map Thn.paidAmount = some 10000 :=
  createThn_advance_no_double_count ⟨[], []⟩ c3Input 1 42 9 _ rfl
    (by simp) rfl rfl (by norm_num [c3Input])

/-! ## C5 -/

/-- C5: on payment creation with TDS applicable and type Receipt, a missing
`tdsAmount` is computed as `amount * tdsRate / 100` and the persisted amount
is the input amount minus it (input treated as gross); a supplied `tdsAmount`
leaves the input amount persisted unchanged (treated as already net); when
TDS is not applicable or the type is not Receipt, all TDS fields are cleared
and the amount passes through unchanged. -/
theorem createPayment_tds_net_gross (pd : PaymentPayload) :
    (pd.tdsApplicable.getD false = true → pd.type = PaymentType.RECEIPT →
      ∀ rate, pd.tdsRate = some rate →
        (pd.tdsAmount = none →
          createPaymentTds pd = CreatePaymentResult.ok
            { amount := pd.amount - pd.amount * (rate / 100),
              tdsAmount := some (pd.amount * (rate / 100)),
              tdsRate := some rate,
              tdsDate := some (pd.tdsDate.getD pd.date) }) ∧
        (∀ a, pd.tdsAmount = some a →
          createPaymentTds pd = CreatePaymentResult.ok
            { amount := pd.amount, tdsAmount := some a, tdsRate := some rate,
              tdsDate := some (pd.tdsDate.getD pd.date) })) ∧
    ((pd.tdsApplicable.getD false = false ∨ ¬ pd.type = PaymentType.RECEIPT) →
      createPaymentTds pd = CreatePaymentResult.ok
        { amount := pd.amount, tdsAmount := none, tdsRate := none,
          tdsDate := none }) := by
  constructor
  · intro hApp hType rate hRate
    constructor
    · intro hNone
      simp [createPaymentTds, hApp, hType, hRate, hNone]
    · intro a hA
      simp [createPaymentTds, hApp, hType, hRate, hA]
  · intro h
    rcases h with h | h
    · simp [createPaymentTds, h]
    · simp [createPaymentTds, h]

/-- Witness for C5 at `c5Payload` (gross 10000, rate 10, no explicit
`tdsAmount`): the persisted amount is `10000 - 10000 * (10 / 100)` and the
stored `tdsAmount` is `10000 * (10 / 100)`. -/
theorem createPayment_tds_net_gross_witness :
    createPaymentTds c5Payload = CreatePaymentResult.ok
      { amount := c5Payload.amount - c5Payload.amount * (10 / 100),
        tdsAmount := some (c5Payload.amount * (10 / 100)),
        tdsRate := some 10,
        tdsDate := some (c5Payload.tdsDate.getD c5Payload.date) } :=
  ((createPayment_tds_net_gross c5Payload).1 rfl rfl 10 rfl).1 rfl

/-! ## C7 -/

/-- C7 counterexample: `c7BothPayload` carries *both* an invoiceId and a
truckHiringNoteId, yet `createPaymentSchema` accepts it — the schema's
refinement `data.invoiceId || data.truckHiringNoteId` enforces at least one
reference, not exactly one. -/
theorem createPaymentSchema_accepts_both_refs_cex :
    strTruthy c7BothPayload.invoiceId = true ∧
    strTruthy c7BothPayload.truckHiringNoteId = true ∧
    createPaymentSchemaAccepts c7BothPayload = true := by
  refine ⟨rfl, rfl, ?_⟩
  simp [createPaymentSchemaAccepts, c7BothPayload, strTruthy]
  exact ⟨by decide, by decide⟩

/-- `createPaymentSchemaAccepts` does evaluate the spec's trim-based check on
a concrete blank customer: a whitespace-only customer fails the
invoice-linked check. -/
theorem trimmedNonempty_blank : trimmedNonempty "  " = false := by decide

/-- C7 amended: the payment validation schema rejects every payload carrying
neither an invoice reference nor a THN reference (the schema enforces at
least one reference, not exactly one). -/
theorem createPaymentSchema_reference_presence (pd : PaymentPayload)
    (h1 : strTruthy pd.invoiceId = false)
    (h2 : strTruthy pd.truckHiringNoteId = false) :
    createPaymentSchemaAccepts pd = false := by
  simp [createPaymentSchemaAccepts, h1, h2]

/-- Witness for the amended C7: the payload with both references removed is
rejected. -/
theorem createPaymentSchema_reference_presence_witness :
    createPaymentSchemaAccepts
      { c7BothPayload with invoiceId := none, truckHiringNoteId := none } =
      false :=
  createPaymentSchema_reference_presence
    { c7BothPayload with invoiceId := none, truckHiringNoteId := none } rfl rfl

/-! ## Helper lemmas: the ledger pipeline -/

/-- `foldl`-accumulation of a sum equals the accumulator plus the mapped
sum. -/
theorem foldl_add_eq {α : Type} (f : α → ℚ) (l : List α) :
    ∀ acc : ℚ, l.foldl (fun a x => a + f x) acc = acc + (l.map f).sum := by
  induction l with
  | nil => intro acc; simp
  | cons x xs ih => intro acc; simp [ih, add_assoc]

/-- `sumBy` is the sum of the mapped list. -/
theorem sumBy_eq_sum {α : Type} (f : α → ℚ) (l : List α) :
    sumBy f l = (l.map f).sum := by
  rw [sumBy, foldl_add_eq]
  simp

/-- The running-balance pass changes only `balance`/`balanceType`: the keys
(date, debit, credit) are untouched. -/
theorem applyRunningBalance_map_key (rb : ℚ) (l : List LedgerEntry) :
    (applyRunningBalance rb l).map entryKey = l.map entryKey := by
  induction l generalizing rb with
  | nil => rfl
  | cons e es ih => simp [applyRunningBalance, entryKey, ih]

/-- The running-balance pass preserves length. -/
theorem applyRunningBalance_length (rb : ℚ) (l : List LedgerEntry) :
    (applyRunningBalance rb l).length = l.length := by
  induction l generalizing rb with
  | nil => rfl
  | cons e es ih => simp [applyRunningBalance, ih]

/-- The full sort-and-balance pipeline preserves length. -/
theorem finalize_length (raw : List LedgerEntry) :
    (finalizeEntries raw).length = raw.length := by
  rw [finalizeEntries, applyRunningBalance_length, sortEntriesByDate]
  exact (List.perm_insertionSort entryDateLE raw).length_eq

/-- `prefixSum` at index 0 is the head's signed value. -/
theorem prefixSum_cons_zero (e : LedgerEntry) (es : List LedgerEntry) :
    prefixSum (e :: es) 0 = entryVal e := by
  simp [prefixSum]

/-- `prefixSum` at a successor index peels off the head. -/
theorem prefixSum_cons_succ (e : LedgerEntry) (es : List LedgerEntry) (i : Nat) :
    prefixSum (e :: es) (i + 1) = entryVal e + prefixSum es i := by
  simp [prefixSum, List.take_succ_cons]

/-- The running-balance pass computes, at every index, the absolute value of
the accumulated signed prefix sum and the matching side. -/
theorem applyRunningBalance_get (l : List LedgerEntry) :
    ∀ (rb : ℚ) (i : Nat) (h : i < (applyRunningBalance rb l).length),
      ((applyRunningBalance rb l).get ⟨i, h⟩).balance = |rb + prefixSum l i| ∧
      ((applyRunningBalance rb l).get ⟨i, h⟩).balanceType =
        (if 0 ≤ rb + prefixSum l i then BalanceType.DR else BalanceType.CR) := by
  induction l with
  | nil => intro rb i h; simp [applyRunningBalance] at h
  | cons e es ih =>
    intro rb i h
    cases i with
    | zero =>
      constructor
      · show |rb + (e.debit - e.credit)| = _
        rw [prefixSum_cons_zero, entryVal]
      · show (if 0 ≤ rb + (e.debit - e.credit) then _ else _) = _
        rw [prefixSum_cons_zero, entryVal]
    | succ i =>
      have h' : i < (applyRunningBalance (rb + (e.debit - e.credit)) es).length := by
        have hlen : (applyRunningBalance rb (e :: es)).length =
            (applyRunningBalance (rb + (e.debit - e.credit)) es).length + 1 := by
          simp [applyRunningBalance]
        omega
      have hmain := ih (rb + (e.debit - e.credit)) i h'
      have harith : rb + prefixSum (e :: es) (i + 1) =
          rb + (e.debit - e.credit) + prefixSum es i := by
        rw [prefixSum_cons_succ, entryVal]
        ring
      have hget : (applyRunningBalance rb (e :: es)).get ⟨i + 1, h⟩ =
          (applyRunningBalance (rb + (e.debit - e.credit)) es).get ⟨i, h'⟩ := rfl
      rw [hget, harith]
      exact hmain

/-- Inserting an entry with `orderedInsert` does not change the subsequence
of entries carrying any fixed date (stability of the insertion step). -/
theorem orderedInsert_filter_date (e : LedgerEntry) (l : List LedgerEntry)
    (d : Int) :
    (List.orderedInsert entryDateLE e l).filter (fun x => decide (x.date = d)) =
      (e :: l).filter (fun x => decide (x.date = d)) := by
  induction l with
  | nil => rfl
  | cons b l ih =>
    by_cases hb : entryDateLE e b
    · rw [List.orderedInsert, if_pos hb]
    · rw [List.orderedInsert, if_neg hb]
      have hlt : b.date < e.date := lt_of_not_le hb
      by_cases hd : e.date = d
      · have hbd : ¬ b.date = d := by
          rw [← hd]
          exact ne_of_lt hlt
        simp [List.filter_cons, hbd, hd, ih]
      · simp [List.filter_cons, hd, ih]

/-- The stable sort does not change the subsequence of entries carrying any
fixed date (ties keep input order). -/
theorem insertionSort_filter_date (l : List LedgerEntry) (d : Int) :
    (List.insertionSort entryDateLE l).filter (fun x => decide (x.date = d)) =
      l.filter (fun x => decide (x.date = d)) := by
  induction l with
  | nil => rfl
  | cons e es ih =>
    rw [List.insertionSort, orderedInsert_filter_date]
    simp [List.filter_cons, ih]

/-- Filtering the keys by date is the image of filtering the entries by
date. -/
theorem filter_map_entryKey (l : List LedgerEntry) (d : Int) :
    (l.map entryKey).filter (fun k => decide (k.1 = d)) =
      (l.filter (fun x => decide (x.date = d))).map entryKey := by
  induction l with
  | nil => rfl
  | cons e es ih =>
    by_cases hd : e.date = d
    · simp [List.filter_cons, entryKey, hd, ih]
    · simp [List.filter_cons, entryKey, hd, ih]

/-- Date order is preserved by any transformation that keeps the entry
keys. -/
theorem pairwise_dateLE_of_map_key_eq {l1 l2 : List LedgerEntry}
    (h : l1.map entryKey = l2.map entryKey)
    (hp : l2.Pairwise entryDateLE) : l1.Pairwise entryDateLE := by
  have h1 : l1.map (fun e => e.date) = l2.map (fun e => e.date) := by
    have h2 := congrArg (List.map (fun k : Int × ℚ × ℚ => k.1)) h
    simpa [List.map_map, Function.comp, entryKey] using h2
  have hp2 : (l2.map (fun e => e.date)).Pairwise (· ≤ ·) :=
    (@List.pairwise_map LedgerEntry Int (fun e => e.date) (· ≤ ·) l2).mpr hp
  have hp1 : (l1.map (fun e => e.date)).Pairwise (· ≤ ·) := h1 ▸ hp2
  exact (@List.pairwise_map LedgerEntry Int (fun e => e.date) (· ≤ ·) l1).mp hp1

/-- Every entry of the finished pipeline carries the date of some raw
entry. -/
theorem mem_finalize_exists_date (raw : List LedgerEntry) (e : LedgerEntry)
    (he : e ∈ finalizeEntries raw) : ∃ x ∈ raw, x.date = e.date := by
  have hkey := applyRunningBalance_map_key 0 (sortEntriesByDate raw)
  have hdate : (finalizeEntries raw).map (fun x => x.date) =
      (sortEntriesByDate raw).map (fun x => x.date) := by
    have h2 := congrArg (List.map (fun k : Int × ℚ × ℚ => k.1)) hkey
    simpa [List.map_map, Function.comp, entryKey] using h2
  have h1 : e.date ∈ (finalizeEntries raw).map (fun x => x.date) :=
    List.mem_map_of_mem _ he
  rw [hdate] at h1
  have h3 : e.date ∈ raw.map (fun x => x.date) :=
    ((List.perm_insertionSort entryDateLE raw).map (fun x => x.date)).mem_iff.mp h1
  obtain ⟨x, hx, hxe⟩ := List.mem_map.mp h3
  exact ⟨x, hx, hxe⟩

/-- Full specification of the shared sort-and-balance pipeline: the result is
sorted by date, it is a stable rearrangement of the raw entries (the
subsequence at each date is unchanged), and every index carries the absolute
prefix sum with the matching side. -/
theorem finalize_spec (raw : List LedgerEntry) :
    (finalizeEntries raw).Pairwise entryDateLE ∧
    (∀ d : Int,
      ((finalizeEntries raw).map entryKey).filter (fun k => decide (k.1 = d)) =
        (raw.map entryKey).filter (fun k => decide (k.1 = d))) ∧
    ∀ (i : Nat) (h : i < (finalizeEntries raw).length),
      ((finalizeEntries raw).get ⟨i, h⟩).balance =
        |prefixSum (finalizeEntries raw) i| ∧
      ((finalizeEntries raw).get ⟨i, h⟩).balanceType =
        (if 0 ≤ prefixSum (finalizeEntries raw) i then BalanceType.DR
         else BalanceType.CR) := by
  have hkey : (finalizeEntries raw).map entryKey =
      (sortEntriesByDate raw).map entryKey :=
    applyRunningBalance_map_key 0 (sortEntriesByDate raw)
  have hs : (sortEntriesByDate raw).Pairwise entryDateLE :=
    List.sorted_insertionSort entryDateLE raw
  refine ⟨pairwise_dateLE_of_map_key_eq hkey hs, ?_, ?_⟩
  · intro d
    rw [hkey, filter_map_entryKey, filter_map_entryKey]
    show ((List.insertionSort entryDateLE raw).filter _).map entryKey = _
    rw [insertionSort_filter_date]
  · intro i h
    have h0 : i < (applyRunningBalance 0 (sortEntriesByDate raw)).length := h
    have hg := applyRunningBalance_get (sortEntriesByDate raw) 0 i h0
    have hval : (finalizeEntries raw).map entryVal =
        (sortEntriesByDate raw).map entryVal := by
      have h2 := congrArg (List.map (fun k : Int × ℚ × ℚ => k.2.1 - k.2.2)) hkey
      simpa [List.map_map, Function.comp, entryKey, entryVal] using h2
    have hps : prefixSum (finalizeEntries raw) i =
        prefixSum (sortEntriesByDate raw) i := by
      rw [prefixSum, prefixSum, List.map_take, List.map_take, hval]
    rw [hps]
    rw [zero_add] at hg
    exact hg

/-- The transactions of the client ledger are exactly the finished pipeline
over its raw entries. -/
theorem clientLedger_transactions (customerId : String) (customer : LCustomer)
    (invoices : List LInvoice) (payments : List LPayment) (thns : List LThn)
    (filters : Option LedgerFilters) :
    (generateClientLedger customerId customer invoices payments thns
        filters).transactions =
      finalizeEntries (clientRawEntries customerId invoices payments filters) :=
  rfl

/-- The transactions of the company ledger are exactly the finished pipeline
over its raw entries for the effective date range. -/
theorem companyLedger_transactions (customers : List LCustomer)
    (invoices : List LInvoice) (payments : List LPayment) (thns : List LThn)
    (filters : Option LedgerFilters) (today : Int) :
    (generateCompanyLedger customers invoices payments thns filters
        today).transactions =
      finalizeEntries (companyRawEntries invoices payments thns
        (effStartDate filters today) (effEndDate filters today)) :=
  rfl

/-! ## C4 -/

/-- C4: for every entry list returned by `generateClientLedger` or
`generateCompanyLedger`, entries are sorted ascending by date, ties keeping
input (generation) order — the subsequence of (date, debit, credit) keys at
each date equals that of the raw entries — and for every index `i`,
`entries[i].balance` equals the absolute value of the signed prefix sum
`Σ_{j≤i}(debit_j - credit_j)`, with `balanceType` DR when that prefix sum is
≥ 0 and CR otherwise. -/
theorem ledger_entries_sorted_balance_law :
    (∀ (customerId : String) (customer : LCustomer) (invoices : List LInvoice)
        (payments : List LPayment) (thns : List LThn)
        (filters : Option LedgerFilters),
      ((generateClientLedger customerId customer invoices payments thns
          filters).transactions).Pairwise entryDateLE ∧
      (∀ d : Int,
        (((generateClientLedger customerId customer invoices payments thns
            filters).transactions).map entryKey).filter
            (fun k => decide (k.1 = d)) =
          ((clientRawEntries customerId invoices payments filters).map
            entryKey).filter (fun k => decide (k.1 = d))) ∧
      ∀ (i : Nat) (h : i < (generateClientLedger customerId customer invoices
          payments thns filters).transactions.length),
        (((generateClientLedger customerId customer invoices payments thns
            filters).transactions).get ⟨i, h⟩).balance =
          |prefixSum ((generateClientLedger customerId customer invoices
            payments thns filters).transactions) i| ∧
        (((generateClientLedger customerId customer invoices payments thns
            filters).transactions).get ⟨i, h⟩).balanceType =
          (if 0 ≤ prefixSum ((generateClientLedger customerId customer invoices
              payments thns filters).transactions) i then BalanceType.DR
           else BalanceType.CR)) ∧
    (∀ (customers : List LCustomer) (invoices : List LInvoice)
        (payments : List LPayment) (thns : List LThn)
        (filters : Option LedgerFilters) (today : Int),
      ((generateCompanyLedger customers invoices payments thns filters
          today).transactions).Pairwise entryDateLE ∧
      (∀ d : Int,
        (((generateCompanyLedger customers invoices payments thns filters
            today).transactions).map entryKey).filter
            (fun k => decide (k.1 = d)) =
          ((companyRawEntries invoices payments thns
              (effStartDate filters today) (effEndDate filters today)).map
            entryKey).filter (fun k => decide (k.1 = d))) ∧
      ∀ (i : Nat) (h : i < (generateCompanyLedger customers invoices payments
          thns filters today).transactions.length),
        (((generateCompanyLedger customers invoices payments thns filters
            today).transactions).get ⟨i, h⟩).balance =
          |prefixSum ((generateCompanyLedger customers invoices payments thns
            filters today).transactions) i| ∧
        (((generateCompanyLedger customers invoices payments thns filters
            today).transactions).get ⟨i, h⟩).balanceType =
          (if 0 ≤ prefixSum ((generateCompanyLedger customers invoices payments
              thns filters today).transactions) i then BalanceType.DR
           else BalanceType.CR)) := by
  constructor
  · intro customerId customer invoices payments thns filters
    exact finalize_spec (clientRawEntries customerId invoices payments filters)
  · intro customers invoices payments thns filters today
    exact finalize_spec (companyRawEntries invoices payments thns
      (effStartDate filters today) (effEndDate filters today))

/-- Witness for C4 on the spec's client-ledger scenario (invoice 12000 on day
1, payment 5000 on day 15): sortedness, stability at date 15, and the balance
law at index 1. -/
theorem ledger_entries_sorted_balance_law_witness :
    ((generateClientLedger "c1" ⟨"c1", "Acme"⟩ [c4Inv] [c4Pay] []
        none).transactions).Pairwise entryDateLE ∧
    ((((generateClientLedger "c1" ⟨"c1", "Acme"⟩ [c4Inv] [c4Pay] []
        none).transactions).map entryKey).filter
        (fun k => decide (k.1 = (15 : Int))) =
      ((clientRawEntries "c1" [c4Inv] [c4Pay] none).map entryKey).filter
        (fun k => decide (k.1 = (15 : Int)))) ∧
    (((generateClientLedger "c1" ⟨"c1", "Acme"⟩ [c4Inv] [c4Pay] []
        none).transactions).get ⟨1, by decide⟩).balance =
      |prefixSum ((generateClientLedger "c1" ⟨"c1", "Acme"⟩ [c4Inv] [c4Pay] []
        none).transactions) 1| := by
  have h := ledger_entries_sorted_balance_law
  have hc := h.1 "c1" ⟨"c1", "Acme"⟩ [c4Inv] [c4Pay] [] none
  exact ⟨hc.1, hc.2.1 15, (hc.2.2 1 (by decide)).1⟩

/-! ## C6 -/

/-- C6 counterexample: for the in-range TDS receipt `c6Payment` (net 9000,
TDS 1000), the company ledger's three entries carry a single debit of 9000
against credits of 1000 and 10000 — total debits 9000, total credits 11000 —
so the payment's total debits do *not* equal its total credits. -/
theorem companyLedger_tds_entries_unbalanced_cex :
    sumBy LedgerEntry.debit (companyRawEntries [] [c6Payment] [] 0 10) = 9000 ∧
    sumBy LedgerEntry.credit (companyRawEntries [] [c6Payment] [] 0 10) = 11000 ∧
    ¬ sumBy LedgerEntry.debit (companyRawEntries [] [c6Payment] [] 0 10) =
        sumBy LedgerEntry.credit (companyRawEntries [] [c6Payment] [] 0 10) := by
  have htype : ¬ (PaymentType.RECEIPT = PaymentType.ADVANCE) := by
    intro h
    cases h
  norm_num [companyRawEntries, companyPaymentEntries, paymentInRange, hasTDS,
    c6Payment, sumBy, htype]

/-- C6 amended: for every in-range Receipt payment with TDS applicable and
`tdsAmount > 0`, `generateCompanyLedger` emits exactly three entries for it —
a debit of the net amount (the stored payment amount) to cash/bank, a credit
of `tdsAmount` to TDS payable dated by `tdsDate` when present and otherwise
the payment date, and a credit of the gross amount (net + tdsAmount) to
receivables (e.g. gross 10000 at 10% yields debit 9000, credit 1000, credit
10000 with stored net amount 9000).  The payment's total credits equal its
total debits plus twice `tdsAmount`; the three entries do not balance. -/
theorem companyLedger_tds_three_entry_split (p : LPayment) (sd ed : Int)
    (h1 : sd ≤ p.date) (h2 : p.date ≤ ed) (h3 : hasTDS p = true) :
    companyRawEntries [] [p] [] sd ed =
      [ { date := p.date, debit := p.amount, credit := 0, balance := 0,
          balanceType := BalanceType.DR },
        { date := p.tdsDate.getD p.date, debit := 0,
          credit := p.tdsAmount.getD 0, balance := 0,
          balanceType := BalanceType.CR },
        { date := p.date, debit := 0, credit := p.amount + p.tdsAmount.getD 0,
          balance := 0, balanceType := BalanceType.CR } ] ∧
    sumBy LedgerEntry.credit (companyRawEntries [] [p] [] sd ed) =
      sumBy LedgerEntry.debit (companyRawEntries [] [p] [] sd ed) +
        2 * p.tdsAmount.getD 0 := by
  have htype : ¬ p.type = PaymentType.ADVANCE := by
    intro hA
    rw [hasTDS, hA] at h3
    simp at h3
  have hentries : companyRawEntries [] [p] [] sd ed =
      [ { date := p.date, debit := p.amount, credit := 0, balance := 0,
          balanceType := BalanceType.DR },
        { date := p.tdsDate.getD p.date, debit := 0,
          credit := p.tdsAmount.getD 0, balance := 0,
          balanceType := BalanceType.CR },
        { date := p.date, debit := 0, credit := p.amount + p.tdsAmount.getD 0,
          balance := 0, balanceType := BalanceType.CR } ] := by
    rw [companyRawEntries]
    simp [paymentInRange, h1, h2, companyPaymentEntries, htype, h3]
  refine ⟨hentries, ?_⟩
  rw [hentries]
  simp [sumBy]
  ring

/-- Witness for the amended C6 at `c6Payment` in the range 0-10. -/
theorem companyLedger_tds_three_entry_split_witness :
    companyRawEntries [] [c6Payment] [] 0 10 =
      [ { date := c6Payment.date, debit := c6Payment.amount, credit := 0,
          balance := 0, balanceType := BalanceType.DR },
        { date := c6Payment.tdsDate.getD c6Payment.date, debit := 0,
          credit := c6Payment.tdsAmount.getD 0, balance := 0,
          balanceType := BalanceType.CR },
        { date := c6Payment.date, debit := 0,
          credit := c6Payment.amount + c6Payment.tdsAmount.getD 0,
          balance := 0, balanceType := BalanceType.CR } ] ∧
    sumBy LedgerEntry.credit (companyRawEntries [] [c6Payment] [] 0 10) =
      sumBy LedgerEntry.debit (companyRawEntries [] [c6Payment] [] 0 10) +
        2 * c6Payment.tdsAmount.getD 0 :=
  companyLedger_tds_three_entry_split c6Payment 0 10 (by norm_num [c6Payment])
    (by norm_num [c6Payment]) (by norm_num [hasTDS, c6Payment])

/-! ## Helper lemmas: company-ledger date range -/

/-- An out-of-range invoice contributes no raw company-ledger entries. -/
theorem companyRaw_drop_invoice (inv : LInvoice) (invs : List LInvoice)
    (pays : List LPayment) (thns : List LThn) (sd ed : Int)
    (h : invoiceInRange sd ed inv = false) :
    companyRawEntries (inv :: invs) pays thns sd ed =
      companyRawEntries invs pays thns sd ed := by
  simp [companyRawEntries, List.filter_cons, h]

/-- An out-of-range payment contributes no raw company-ledger entries. -/
theorem companyRaw_drop_payment (invs : List LInvoice) (p : LPayment)
    (pays : List LPayment) (thns : List LThn) (sd ed : Int)
    (h : paymentInRange sd ed p = false) :
    companyRawEntries invs (p :: pays) thns sd ed =
      companyRawEntries invs pays thns sd ed := by
  simp [companyRawEntries, List.filter_cons, h]

/-- An out-of-range THN contributes no raw company-ledger entries. -/
theorem companyRaw_drop_thn (invs : List LInvoice) (pays : List LPayment)
    (t : LThn) (thns : List LThn) (sd ed : Int)
    (h : thnInRange sd ed t = false) :
    companyRawEntries invs pays (t :: thns) sd ed =
      companyRawEntries invs pays thns sd ed := by
  simp [companyRawEntries, List.filter_cons, h]

/-- Every entry generated by the client ledger under a present `startDate`
filter is dated on or after the cutoff. -/
theorem clientRaw_startDate (cid : String) (invs : List LInvoice)
    (pays : List LPayment) (f : LedgerFilters) (sd : Int)
    (hf : f.startDate = some sd) :
    ∀ x ∈ clientRawEntries cid invs pays (some f), sd ≤ x.date := by
  intro x hx
  rw [clientRawEntries] at hx
  simp only [List.mem_append, List.mem_map] at hx
  rcases hx with ⟨inv, hinv, rfl⟩ | ⟨p, hp, rfl⟩
  · have hok := (List.mem_filter.mp hinv).2
    have hd : decide (sd ≤ inv.date) = true := by
      simpa [clientStartDateOk, hf] using hok
    simpa [clientInvoiceEntry] using of_decide_eq_true hd
  · have hok := (List.mem_filter.mp hp).2
    have hd : decide (sd ≤ p.date) = true := by
      simpa [clientStartDateOk, hf] using hok
    simpa [clientPaymentEntry] using of_decide_eq_true hd

/-! ## C9 -/

/-- C9 counterexample: `generateClientLedger` does not honor `endDate`.  The
invoice `c9Inv` is dated day 10, the filter's `endDate` is day 5, yet the
client ledger still contains its entry — the claim requires entries dated
after `endDate` to be excluded. -/
theorem clientLedger_endDate_not_honored_cex :
    (generateClientLedger "c1" ⟨"c1", "Acme"⟩ [c9Inv] [] []
        (some c9Filters)).transactions.length = 1 ∧
    c9Filters.endDate = some 5 ∧ c9Inv.date = 10 ∧ ¬ ((10 : Int) ≤ 5) := by
  refine ⟨?_, rfl, rfl, by omega⟩
  rw [clientLedger_transactions, finalize_length]
  simp [clientRawEntries, c9Inv, c9Filters, clientStartDateOk,
    invoiceForCustomer]

/-- C9 amended: `generateClientLedger` honors only `startDate` — every
emitted entry is dated on or after a present `startDate` (cutoff included),
and the output is unchanged under any variation of `endDate`, `customerId`,
`voucherType`, `minAmount`, `maxAmount`; `generateCompanyLedger` honors both
`startDate` and `endDate` — records dated strictly before the effective start
or strictly after the effective end contribute no entries, records on the
cutoff dates are included, and the output is unchanged under variation of the
four non-date fields. -/
theorem ledger_date_filters_honored :
    (∀ (cid : String) (cust : LCustomer) (invs : List LInvoice)
        (pays : List LPayment) (thns : List LThn) (f : LedgerFilters)
        (sd : Int), f.startDate = some sd →
      ∀ e ∈ (generateClientLedger cid cust invs pays thns
          (some f)).transactions, sd ≤ e.date) ∧
    (∀ (cid : String) (cust : LCustomer) (invs : List LInvoice)
        (pays : List LPayment) (thns : List LThn) (f1 f2 : LedgerFilters),
      f1.startDate = f2.startDate →
      generateClientLedger cid cust invs pays thns (some f1) =
        generateClientLedger cid cust invs pays thns (some f2)) ∧
    (∀ (custs : List LCustomer) (invs : List LInvoice) (pays : List LPayment)
        (thns : List LThn) (f1 f2 : LedgerFilters) (today : Int),
      f1.startDate = f2.startDate → f1.endDate = f2.endDate →
      generateCompanyLedger custs invs pays thns (some f1) today =
        generateCompanyLedger custs invs pays thns (some f2) today) ∧
    (∀ (custs : List LCustomer) (inv : LInvoice) (invs : List LInvoice)
        (pays : List LPayment) (thns : List LThn)
        (f : Option LedgerFilters) (today : Int),
      inv.date < effStartDate f today ∨ effEndDate f today < inv.date →
      (generateCompanyLedger custs (inv :: invs) pays thns f
          today).transactions =
        (generateCompanyLedger custs invs pays thns f today).transactions) ∧
    (∀ (custs : List LCustomer) (invs : List LInvoice) (p : LPayment)
        (pays : List LPayment) (thns : List LThn)
        (f : Option LedgerFilters) (today : Int),
      p.date < effStartDate f today ∨ effEndDate f today < p.date →
      (generateCompanyLedger custs invs (p :: pays) thns f
          today).transactions =
        (generateCompanyLedger custs invs pays thns f today).transactions) ∧
    (∀ (custs : List LCustomer) (invs : List LInvoice) (pays : List LPayment)
        (t : LThn) (thns : List LThn) (f : Option LedgerFilters) (today : Int),
      t.date < effStartDate f today ∨ effEndDate f today < t.date →
      (generateCompanyLedger custs invs pays (t :: thns) f
          today).transactions =
        (generateCompanyLedger custs invs pays thns f today).transactions) ∧
    (∀ (custs : List LCustomer) (inv : LInvoice) (invs : List LInvoice)
        (pays : List LPayment) (thns : List LThn)
        (f : Option LedgerFilters) (today : Int),
      effStartDate f today ≤ inv.date → inv.date ≤ effEndDate f today →
      (generateCompanyLedger custs (inv :: invs) pays thns f
          today).transactions.length =
        (generateCompanyLedger custs invs pays thns f
          today).transactions.length + 2) ∧
    (∀ (cid : String) (cust : LCustomer) (inv : LInvoice)
        (invs : List LInvoice) (pays : List LPayment) (thns : List LThn)
        (f : Option LedgerFilters),
      invoiceForCustomer cid inv = true →
      clientStartDateOk f inv.date = true →
      (generateClientLedger cid cust (inv :: invs) pays thns
          f).transactions.length =
        (generateClientLedger cid cust invs pays thns
          f).transactions.length + 1) := by
  refine ⟨?_, ?_, ?_, ?_, ?_, ?_, ?_, ?_⟩
  · intro cid cust invs pays thns f sd hf e he
    obtain ⟨x, hxmem, hxdate⟩ :=
      mem_finalize_exists_date (clientRawEntries cid invs pays (some f)) e he
    rw [← hxdate]
    exact clientRaw_startDate cid invs pays f sd hf x hxmem
  · intro cid cust invs pays thns f1 f2 h
    have hok : clientStartDateOk (some f1) = clientStartDateOk (some f2) := by
      funext d
      simp only [clientStartDateOk, h]
    have hraw : clientRawEntries cid invs pays (some f1) =
        clientRawEntries cid invs pays (some f2) := by
      rw [clientRawEntries, clientRawEntries, hok]
    simp only [generateClientLedger, hraw]
  · intro custs invs pays thns f1 f2 today h1 h2
    have hs : effStartDate (some f1) today = effStartDate (some f2) today := by
      simp [effStartDate, h1]
    have he : effEndDate (some f1) today = effEndDate (some f2) today := by
      simp [effEndDate, h2]
    simp only [generateCompanyLedger, hs, he]
  · intro custs inv invs pays thns f today h
    have hr : invoiceInRange (effStartDate f today) (effEndDate f today) inv =
        false := by
      simp only [invoiceInRange, Bool.and_eq_false_iff, decide_eq_false_iff_not,
        not_le]
      omega
    rw [companyLedger_transactions, companyLedger_transactions,
      companyRaw_drop_invoice _ _ _ _ _ _ hr]
  · intro custs invs p pays thns f today h
    have hr : paymentInRange (effStartDate f today) (effEndDate f today) p =
        false := by
      simp only [paymentInRange, Bool.and_eq_false_iff, decide_eq_false_iff_not,
        not_le]
      omega
    rw [companyLedger_transactions, companyLedger_transactions,
      companyRaw_drop_payment _ _ _ _ _ _ hr]
  · intro custs invs pays t thns f today h
    have hr : thnInRange (effStartDate f today) (effEndDate f today) t =
        false := by
      simp only [thnInRange, Bool.and_eq_false_iff, decide_eq_false_iff_not,
        not_le]
      omega
    rw [companyLedger_transactions, companyLedger_transactions,
      companyRaw_drop_thn _ _ _ _ _ _ hr]
  · intro custs inv invs pays thns f today h1 h2
    have hr : invoiceInRange (effStartDate f today) (effEndDate f today) inv =
        true := by
      simp [invoiceInRange, h1, h2]
    rw [companyLedger_transactions, companyLedger_transactions,
      finalize_length, finalize_length]
    simp [companyRawEntries, List.filter_cons, hr, companyInvoiceEntries]
  · intro cid cust inv invs pays thns f hc hok
    rw [clientLedger_transactions, clientLedger_transactions,
      finalize_length, finalize_length]
    simp [clientRawEntries, List.filter_cons, hc, hok]

/-- Witness for the amended C9: varying the four non-date fields (and, for
the client ledger, `endDate`) leaves the output unchanged; records dated
inside the range — boundaries included — are counted. -/
theorem ledger_date_filters_honored_witness :
    (generateClientLedger "c1" ⟨"c1", "Acme"⟩ [c9Inv] [] []
        (some ⟨some 0, some 99, some "x", some "INVOICE", some 1, some 2⟩) =
      generateClientLedger "c1" ⟨"c1", "Acme"⟩ [c9Inv] [] []
        (some ⟨some 0, none, none, none, none, none⟩)) ∧
    (generateCompanyLedger [] [c9Inv] [] []
        (some ⟨some 0, some 99, some "x", some "INVOICE", some 1, some 2⟩) 100 =
      generateCompanyLedger [] [c9Inv] [] []
        (some ⟨some 0, some 99, none, none, none, none⟩) 100) ∧
    ((generateCompanyLedger [] [c9Inv] [] []
        (some ⟨some 0, some 99, none, none, none, none⟩) 100).transactions.length =
      (generateCompanyLedger [] [] [] []
        (some ⟨some 0, some 99, none, none, none, none⟩) 100).transactions.length
        + 2) ∧
    ((generateClientLedger "c1" ⟨"c1", "Acme"⟩ [c9Inv] [] []
        none).transactions.length =
      (generateClientLedger "c1" ⟨"c1", "Acme"⟩ [] [] []
        none).transactions.length + 1) := by
  have h := ledger_date_filters_honored
  exact ⟨h.2.1 "c1" ⟨"c1", "Acme"⟩ [c9Inv] [] [] _ _ rfl,
    h.2.2.1 [] [c9Inv] [] [] _ _ 100 rfl rfl,
    h.2.2.2.2.2.2.1 [] c9Inv [] [] [] _ 100 (by decide) (by decide),
    h.2.2.2.2.2.2.2 "c1" ⟨"c1", "Acme"⟩ c9Inv [] [] [] none (by decide) rfl⟩

/-! ## C10 -/

/-- C10: `generateCompanyLedger` computes its summary over the entire input
collections regardless of the date range: `totalRevenue` is the sum of
`grandTotal` over all input invoices, `totalExpenses` the sum of
`freightRate` over all input THNs, `netProfit` their difference — so an
invoice or THN dated outside the effective range, which contributes no
ledger entries, still changes the summary totals. -/
theorem companyLedger_summary_ignores_date_range :
    (∀ (custs : List LCustomer) (invs : List LInvoice) (pays : List LPayment)
        (thns : List LThn) (f : Option LedgerFilters) (today : Int),
      (generateCompanyLedger custs invs pays thns f
          today).summary.totalRevenue = (invs.map LInvoice.grandTotal).sum ∧
      (generateCompanyLedger custs invs pays thns f
          today).summary.totalExpenses = (thns.map LThn.freightRate).sum ∧
      (generateCompanyLedger custs invs pays thns f today).summary.netProfit =
        (invs.map LInvoice.grandTotal).sum -
          (thns.map LThn.freightRate).sum) ∧
    (∀ (custs : List LCustomer) (inv : LInvoice) (invs : List LInvoice)
        (pays : List LPayment) (thns : List LThn) (f : Option LedgerFilters)
        (today : Int),
      inv.date < effStartDate f today ∨ effEndDate f today < inv.date →
      (generateCompanyLedger custs (inv :: invs) pays thns f
          today).transactions =
        (generateCompanyLedger custs invs pays thns f today).transactions ∧
      (generateCompanyLedger custs (inv :: invs) pays thns f
          today).summary.totalRevenue =
        inv.grandTotal + (generateCompanyLedger custs invs pays thns f
          today).summary.totalRevenue) ∧
    (∀ (custs : List LCustomer) (invs : List LInvoice) (pays : List LPayment)
        (t : LThn) (thns : List LThn) (f : Option LedgerFilters)
        (today : Int),
      t.date < effStartDate f today ∨ effEndDate f today < t.date →
      (generateCompanyLedger custs invs pays (t :: thns) f
          today).transactions =
        (generateCompanyLedger custs invs pays thns f today).transactions ∧
      (generateCompanyLedger custs invs pays (t :: thns) f
          today).summary.totalExpenses =
        t.freightRate + (generateCompanyLedger custs invs pays thns f
          today).summary.totalExpenses) := by
  refine ⟨?_, ?_, ?_⟩
  · intro custs invs pays thns f today
    refine ⟨?_, ?_, ?_⟩
    · show sumBy LInvoice.grandTotal invs = _
      exact sumBy_eq_sum _ _
    · show sumBy LThn.freightRate thns = _
      exact sumBy_eq_sum _ _
    · show sumBy LInvoice.grandTotal invs - sumBy LThn.freightRate thns = _
      rw [sumBy_eq_sum, sumBy_eq_sum]
  · intro custs inv invs pays thns f today h
    have hr : invoiceInRange (effStartDate f today) (effEndDate f today) inv =
        false := by
      simp only [invoiceInRange, Bool.and_eq_false_iff,
        decide_eq_false_iff_not, not_le]
      omega
    constructor
    · rw [companyLedger_transactions, companyLedger_transactions,
        companyRaw_drop_invoice _ _ _ _ _ _ hr]
    · show sumBy LInvoice.grandTotal (inv :: invs) =
        inv.grandTotal + sumBy LInvoice.grandTotal invs
      rw [sumBy_eq_sum, sumBy_eq_sum]
      simp
  · intro custs invs pays t thns f today h
    have hr : thnInRange (effStartDate f today) (effEndDate f today) t =
        false := by
      simp only [thnInRange, Bool.and_eq_false_iff,
        decide_eq_false_iff_not, not_le]
      omega
    constructor
    · rw [companyLedger_transactions, companyLedger_transactions,
        companyRaw_drop_thn _ _ _ _ _ _ hr]
    · show sumBy LThn.freightRate (t :: thns) =
        t.freightRate + sumBy LThn.freightRate thns
      rw [sumBy_eq_sum, sumBy_eq_sum]
      simp

/-- Witness for C10: an invoice dated day 200 — outside the filter range
0-10 — adds no transactions but still increases `totalRevenue` by its grand
total. -/
theorem companyLedger_summary_ignores_date_range_witness :
    ((generateCompanyLedger [] [c10Inv] [] [c10Thn] (some c10Filters)
        50).summary.totalRevenue = ([c10Inv].map LInvoice.grandTotal).sum) ∧
    ((generateCompanyLedger []
        ({ id := "i9", invoiceNumber := 9, date := 200, customer := none,
           grandTotal := 5 } :: [c10Inv]) [] [c10Thn] (some c10Filters)
        50).transactions =
      (generateCompanyLedger [] [c10Inv] [] [c10Thn] (some c10Filters)
        50).transactions) ∧
    ((generateCompanyLedger []
        ({ id := "i9", invoiceNumber := 9, date := 200, customer := none,
           grandTotal := 5 } :: [c10Inv]) [] [c10Thn] (some c10Filters)
        50).summary.totalRevenue =
      5 + (generateCompanyLedger [] [c10Inv] [] [c10Thn] (some c10Filters)
        50).summary.totalRevenue) := by
  have h := companyLedger_summary_ignores_date_range
  have h2 := h.2.1 []
    { id := "i9", invoiceNumber := 9, date := 200, customer := none,
      grandTotal := 5 } [c10Inv] [] [c10Thn] (some c10Filters) 50
    (by right; decide)
  exact ⟨(h.1 [] [c10Inv] [] [c10Thn] (some c10Filters) 50).1, h2.1, h2.2⟩
